import Mathlib

/-!
Shallow embedding of the EBU STL subtitle decoder
(src/libavcodec/ebustldec.c and src/libavformat/ebustldec.c).

Bytes are modelled as `Nat` (the C code reads them as `uint8_t`), byte
strings as `List Nat`.  C string literals that end up in the produced
markup are embedded through `ascii`, which turns a Lean string literal
into its byte list.
-/

set_option maxRecDepth 10000

/-- Byte list of an ASCII string literal.  Braces are written with the
escapes \x7b and \x7d. -/
def ascii (s : String) : List Nat := s.toList.map Char.toNat

/-- From src/libavcodec/ebustldec.c line 14. -/
def TTI_TEXT_FIELD_OFFSET : Nat := 16

/-- From src/libavcodec/ebustldec.c line 15. -/
def TTI_TEXT_FIELD_LENGTH : Nat := 112

/-- From src/libavcodec/ebustldec.c line 16. -/
def TTI_BLOCK_SIZE : Nat := 128

/-- The local `text_field_offset` of `extract_text_and_colors_from_tti_block`
(src/libavcodec/ebustldec.c line 237). -/
def text_field_offset : Nat := 13

/-- `map_iso6937_to_utf8` (src/libavcodec/ebustldec.c lines 75-137).
Each result is the UTF-8 byte sequence of the C string literal returned
by the source; `none` models the C function returning NULL. -/
def map_iso6937_to_utf8 (diacritic base : Nat) : Option (List Nat) :=
  match diacritic with
  | 0xC1 =>  -- accent grave
    match base with
    | 0x41 => some [0xC3, 0x80]  -- À
    | 0x45 => some [0xC3, 0x88]  -- È
    | 0x49 => some [0xC3, 0x8C]  -- Ì
    | 0x4F => some [0xC3, 0x92]  -- Ò
    | 0x55 => some [0xC3, 0x99]  -- Ù
    | 0x61 => some [0xC3, 0xA0]  -- à
    | 0x65 => some [0xC3, 0xA8]  -- è
    | 0x69 => some [0xC3, 0xAC]  -- ì
    | 0x6F => some [0xC3, 0xB2]  -- ò
    | 0x75 => some [0xC3, 0xB9]  -- ù
    | _ => none
  | 0xC2 =>  -- accent aigu
    match base with
    | 0x41 => some [0xC3, 0x81]  -- Á
    | 0x45 => some [0xC3, 0x89]  -- É
    | 0x49 => some [0xC3, 0x8D]  -- Í
    | 0x4F => some [0xC3, 0x93]  -- Ó
    | 0x55 => some [0xC3, 0x9A]  -- Ú
    | 0x61 => some [0xC3, 0xA1]  -- á
    | 0x65 => some [0xC3, 0xA9]  -- é
    | 0x69 => some [0xC3, 0xAD]  -- í
    | 0x6F => some [0xC3, 0xB3]  -- ó
    | 0x75 => some [0xC3, 0xBA]  -- ú
    | _ => none
  | 0xC3 =>  -- accent circonflexe
    match base with
    | 0x41 => some [0xC3, 0x82]  -- Â
    | 0x45 => some [0xC3, 0x8A]  -- Ê
    | 0x49 => some [0xC3, 0x8E]  -- Î
    | 0x4F => some [0xC3, 0x94]  -- Ô
    | 0x55 => some [0xC3, 0x9B]  -- Û
    | 0x61 => some [0xC3, 0xA2]  -- â
    | 0x65 => some [0xC3, 0xAA]  -- ê
    | 0x69 => some [0xC3, 0xAE]  -- î
    | 0x6F => some [0xC3, 0xB4]  -- ô
    | 0x75 => some [0xC3, 0xBB]  -- û
    | _ => none
  | 0xC8 =>  -- tréma
    match base with
    | 0x41 => some [0xC3, 0x84]  -- Ä
    | 0x45 => some [0xC3, 0x8B]  -- Ë
    | 0x49 => some [0xC3, 0x8F]  -- Ï
    | 0x4F => some [0xC3, 0x96]  -- Ö
    | 0x55 => some [0xC3, 0x9C]  -- Ü
    | 0x61 => some [0xC3, 0xA4]  -- ä
    | 0x65 => some [0xC3, 0xAB]  -- ë
    | 0x69 => some [0xC3, 0xAF]  -- ï
    | 0x6F => some [0xC3, 0xB6]  -- ö
    | 0x75 => some [0xC3, 0xBC]  -- ü
    | _ => none
  | _ => none

/-- `convert_iso6937_to_utf8` (src/libavcodec/ebustldec.c lines 139-168),
as the byte list written to the output buffer (without the final NUL).
A diacritic lead byte in 0xC1..0xCF followed by a mapped base letter
yields the mapped UTF-8 bytes and consumes both input bytes; otherwise
the byte is copied through unchanged. -/
def convert_iso6937_to_utf8 : List Nat → List Nat
  | [] => []
  | [b] => [b]
  | b :: c :: rest =>
    if 0xC1 ≤ b ∧ b ≤ 0xCF then
      match map_iso6937_to_utf8 b c with
      | some u => u ++ convert_iso6937_to_utf8 rest
      | none => b :: convert_iso6937_to_utf8 (c :: rest)
    else b :: convert_iso6937_to_utf8 (c :: rest)

/-- The `out_len` allocation size of `convert_iso6937_to_utf8`
(src/libavcodec/ebustldec.c line 140): `length * 4`. -/
def out_len (length : Nat) : Nat := length * 4

/-- Loop body of `extract_colors_from_tti` (src/libavcodec/ebustldec.c
lines 179-229): state is (text_color, background_color, current_line).
On byte 0x8A the line counter advances; the scan stops once the counter
passes the requested line (the same byte then matches neither color
range, so skipping the color checks after a 0x8A is faithful). -/
def colorScanGo (line_count : Nat) : List Nat → Nat → Nat → Nat → Nat × Nat
  | [], text_color, background_color, _ => (text_color, background_color)
  | b :: rest, text_color, background_color, current_line =>
    if b = 0x8A then
      if line_count < current_line + 1 then (text_color, background_color)
      else colorScanGo line_count rest 0x00 0x07 (current_line + 1)
    else if current_line = line_count then
      if b ≤ 0x07 then
        colorScanGo line_count rest b background_color current_line
      else if 0x10 ≤ b ∧ b ≤ 0x17 then
        colorScanGo line_count rest text_color (b &&& 0x07) current_line
      else colorScanGo line_count rest text_color background_color current_line
    else colorScanGo line_count rest text_color background_color current_line

/-- `extract_colors_from_tti` (src/libavcodec/ebustldec.c lines 174-232):
scans bytes TTI_TEXT_FIELD_OFFSET .. TTI_TEXT_FIELD_OFFSET +
TTI_TEXT_FIELD_LENGTH - 1 of the block, starting from the defaults
(0x00 white text, 0x07 black background), and returns the color pair
in effect for the requested line. -/
def extract_colors_from_tti (buf : List Nat) (line_count : Nat) : Nat × Nat :=
  colorScanGo line_count
    ((buf.drop TTI_TEXT_FIELD_OFFSET).take TTI_TEXT_FIELD_LENGTH) 0x00 0x07 0

/-- The first `text_color_str` if-chain of
`extract_text_and_colors_from_tti_block` (src/libavcodec/ebustldec.c
lines 247-264), used for the colors of line 0.  The final else models
the unreachable case where `text_color_str` stays NULL (the extracted
text color is always 0..7). -/
def text_color_str_initial (text_color : Nat) : List Nat :=
  if text_color = 0 then ascii "\x7b\\c&HFFFFFF&\x7d"
  else if text_color = 1 then ascii "\x7b\\c&H0000FF&\x7d"
  else if text_color = 2 then ascii "\x7b\\c&H00FF00&\x7d"
  else if text_color = 3 then ascii "\x7b\\c&H00FFFF&\x7d"
  else if text_color = 4 then ascii "\x7b\\c&HFF0000&\x7d"
  else if text_color = 5 then ascii "\x7b\\c&HFF00FF&\x7d"
  else if text_color = 6 then ascii "\x7b\\c&HFFFF00&\x7d"
  else if text_color = 7 then ascii "\x7b\\c&H000000&\x7d"
  else []

/-- The first `border_color` if-chain (src/libavcodec/ebustldec.c
lines 266-283), used for the background of line 0. -/
def border_color_initial (background_color : Nat) : List Nat :=
  if background_color = 0 then ascii "\x7b\\3c&HFFFFFF&\x7d"
  else if background_color = 1 then ascii "\x7b\\3c&H00FFFF&\x7d"
  else if background_color = 2 then ascii "\x7b\\3c&H00FF00&\x7d"
  else if background_color = 3 then ascii "\x7b\\3c&HFF0000&\x7d"
  else if background_color = 4 then ascii "\x7b\\3c&H0000FF&\x7d"
  else if background_color = 5 then ascii "\x7b\\3c&HFF00FF&\x7d"
  else if background_color = 6 then ascii "\x7b\\3c&HFFFF00&\x7d"
  else if background_color = 7 then ascii "\x7b\\3c&H000000&\x7d"
  else []

/-- The second `text_color_str` if-chain, run after each 0x8A newline
(src/libavcodec/ebustldec.c lines 313-329).  Note the entries for
values 1 and 4 differ from `text_color_str_initial`. -/
def text_color_str_newline (text_color : Nat) : List Nat :=
  if text_color = 0 then ascii "\x7b\\c&HFFFFFF&\x7d"
  else if text_color = 1 then ascii "\x7b\\c&HFF0000&\x7d"
  else if text_color = 2 then ascii "\x7b\\c&H00FF00&\x7d"
  else if text_color = 3 then ascii "\x7b\\c&H00FFFF&\x7d"
  else if text_color = 4 then ascii "\x7b\\c&H0000FF&\x7d"
  else if text_color = 5 then ascii "\x7b\\c&HFF00FF&\x7d"
  else if text_color = 6 then ascii "\x7b\\c&HFFFF00&\x7d"
  else if text_color = 7 then ascii "\x7b\\c&H000000&\x7d"
  else []

/-- The second `border_color` if-chain, run after each 0x8A newline
(src/libavcodec/ebustldec.c lines 331-347). -/
def border_color_newline (background_color : Nat) : List Nat :=
  if background_color = 0 then ascii "\x7b\\3c&HFFFFFF&\x7d"
  else if background_color = 1 then ascii "\x7b\\3c&H00FFFF&\x7d"
  else if background_color = 2 then ascii "\x7b\\3c&H00FF00&\x7d"
  else if background_color = 3 then ascii "\x7b\\3c&HFF0000&\x7d"
  else if background_color = 4 then ascii "\x7b\\3c&H0000FF&\x7d"
  else if background_color = 5 then ascii "\x7b\\3c&HFF00FF&\x7d"
  else if background_color = 6 then ascii "\x7b\\3c&HFFFF00&\x7d"
  else if background_color = 7 then ascii "\x7b\\3c&H000000&\x7d"
  else []

/-- The line-emission step of `extract_text_and_colors_from_tti_block`,
duplicated in the source at the 0x8A branch (lines 290-305), at the
0x8F break and at loop exit (lines 362-375): convert the accumulated
line and append it to the markup, preceded by the two-character
sequence backslash-N when a previous line exists; an empty line
appends nothing. -/
def flush_line (ass_string line : List Nat) (line_count : Nat) : List Nat :=
  let utf8_line := convert_iso6937_to_utf8 line
  if 0 < line_count ∧ line ≠ [] then ass_string ++ ascii "\\N" ++ utf8_line
  else if line ≠ [] then ass_string ++ utf8_line
  else ass_string

/-- The scanning loop of `extract_text_and_colors_from_tti_block`
(src/libavcodec/ebustldec.c lines 287-360 plus the trailing flush at
lines 362-375): state is (markup so far, current raw line, line
counter); 0x8A flushes the line and appends the newline color tags for
the next line, 0x8F stops the scan, bytes ≥ 32 accumulate into the
current line, all other bytes are dropped. -/
def tti_text_loop (tti_block : List Nat) :
    List Nat → List Nat → List Nat → Nat → List Nat
  | [], ass_string, line, line_count => flush_line ass_string line line_count
  | character :: rest, ass_string, line, line_count =>
    if character = 0x8A then
      let flushed := flush_line ass_string line line_count
      let colors := extract_colors_from_tti tti_block (line_count + 1)
      tti_text_loop tti_block rest
        (flushed ++ text_color_str_newline colors.1 ++ border_color_newline colors.2)
        [] (line_count + 1)
    else if character = 0x8F then flush_line ass_string line line_count
    else if 32 ≤ character then
      tti_text_loop tti_block rest ass_string (line ++ [character]) line_count
    else tti_text_loop tti_block rest ass_string line line_count

/-- `extract_text_and_colors_from_tti_block` (src/libavcodec/ebustldec.c
lines 236-378): the markup starts with the line-0 color tags from the
first two if-chains, then the loop scans block bytes
`text_field_offset` .. `tti_block_size` - 1. -/
def extract_text_and_colors_from_tti_block
    (tti_block : List Nat) (tti_block_size : Nat) : List Nat :=
  let colors := extract_colors_from_tti tti_block 0
  let ass_string := text_color_str_initial colors.1 ++ border_color_initial colors.2
  tti_text_loop tti_block
    ((tti_block.take tti_block_size).drop text_field_offset) ass_string [] 0

/-- The `horizontal_alignment` computation of `ebustl_decode_frame`
(src/libavcodec/ebustldec.c lines 407-414): initialized to 2 and
overridden for justification codes 0x01, 0x02, 0x03. -/
def horizontal_alignment (justification_code : Nat) : Nat :=
  if justification_code = 0x01 then 1
  else if justification_code = 0x02 then 2
  else if justification_code = 0x03 then 3
  else 2

/-- The `vertical_alignment` computation of `ebustl_decode_frame`
(src/libavcodec/ebustldec.c lines 416-423). -/
def vertical_alignment (vertical_position : Nat) : Nat :=
  if vertical_position < 8 then 3
  else if 8 ≤ vertical_position ∧ vertical_position ≤ 16 then 2
  else 1

/-- The alignment code emitted at src/libavcodec/ebustldec.c line 425:
`(vertical_alignment - 1) * 3 + horizontal_alignment`. -/
def alignment_code (vertical_position justification_code : Nat) : Nat :=
  (vertical_alignment vertical_position - 1) * 3
    + horizontal_alignment justification_code

/-- One iteration of the while loop of `ebustl_decode_frame`
(src/libavcodec/ebustldec.c lines 389-444) on a 128-byte block:
returns the emitted cue (None on the empty-markup skip path at lines
396-401) and the updated `readorder` sequence index, which is
incremented only when a cue is emitted (line 435). -/
def ebustl_decode_block (buf : List Nat) (readorder : Nat) :
    Option (List Nat) × Nat :=
  let ass_text := extract_text_and_colors_from_tti_block buf TTI_BLOCK_SIZE
  if ass_text = [] then (none, readorder)
  else
    let justification_code := buf.getD 14 0
    let vertical_position := buf.getD 13 0
    let alignment_str :=
      ascii "\x7b\\an"
        ++ ascii (toString (alignment_code vertical_position justification_code))
        ++ ascii "\x7d"
    let final_ass_text := alignment_str ++ ass_text ++ ascii "\x7b\\bord3\x7d"
    (some final_ass_text, readorder + 1)

/-- FFmpeg's AVPROBE_SCORE_MAX. -/
def AVPROBE_SCORE_MAX : Nat := 100

/-- `ebustl_probe` (src/libavformat/ebustldec.c lines 13-20).  Each
`List.get?` models one read `p->buf[i]`, in the source's left-to-right
short-circuit order; a `none` result marks a read at an index not
strictly below the buffer length, i.e. out of bounds. -/
def ebustl_probe (buf : List Nat) : Option Nat :=
  if buf.length < 5 then some 0
  else
    match buf.get? 3 with
    | none => none
    | some b3 =>
      if b3 = 0x53 then
        match buf.get? 4 with
        | none => none
        | some b4 =>
          if b4 = 0x54 then
            match buf.get? 5 with
            | none => none
            | some b5 =>
              if b5 = 0x4C then some AVPROBE_SCORE_MAX else some 0
          else some 0
      else some 0

/-- `ebustl_timestamp_to_pts` (src/libavformat/ebustldec.c lines 37-44):
reads the four timecode bytes and combines them with the source's
expression, including the integer division 1000 / 25 for the frame
duration. -/
def ebustl_timestamp_to_pts (timecode : List Nat) : Int :=
  let hours : Int := timecode.getD 0 0
  let minutes : Int := timecode.getD 1 0
  let seconds : Int := timecode.getD 2 0
  let frames : Int := timecode.getD 3 0
  ((hours - 10) * 3600 + minutes * 60 + seconds) * 1000 + frames * (1000 / 25)

/-- Spec formula for the timecode (spec.md section 3, "Derived value"):
milliseconds = ((hours-10)*3600 + minutes*60 + seconds)*1000 + frames*40.
Stated from the spec's words, to be compared with
`ebustl_timestamp_to_pts`. -/
def timestamp_to_pts_spec (hours minutes seconds frames : Nat) : Int :=
  (((hours : Int) - 10) * 3600 + (minutes : Int) * 60 + (seconds : Int)) * 1000
    + (frames : Int) * 40

/-- Spec vertical rank (spec.md section 4.5): vertical_position < 8 →
Bottom = 3, 8 ≤ vertical_position ≤ 16 → Middle = 2, > 16 → Top = 1.
Stated from the spec's words, to be compared with `vertical_alignment`. -/
def vertical_rank_spec (vertical_position : Nat) : Nat :=
  if vertical_position < 8 then 3
  else if vertical_position ≤ 16 then 2
  else 1

/-- Spec horizontal rank (claim C6 / spec.md section 4.5): 1 for
justification 0x01, 3 for 0x03, 2 for 0x02 and every other value.
Stated from the spec's words, to be compared with
`horizontal_alignment`. -/
def horizontal_rank_spec (justification_code : Nat) : Nat :=
  if justification_code = 0x01 then 1
  else if justification_code = 0x03 then 3
  else 2

/-- A 128-byte TTI block whose text field consists solely of 0x8F
end-of-text markers: no printable byte precedes the end-of-text marker
under either text-field offset. -/
def block_only_end_marker : List Nat :=
  List.replicate 13 0x00 ++ List.replicate 115 0x8F

/-- A 128-byte TTI block with two lines, each preceded by text-color
control byte 0x01 (red): bytes 13-15 are spaces, byte 16 is 0x01,
byte 17 is A, byte 18 is the 0x8A line break, byte 19 is 0x01,
byte 20 is B, and the rest is 0x8F padding. -/
def block_red_on_two_lines : List Nat :=
  List.replicate 13 0x00
    ++ [0x20, 0x20, 0x20, 0x01, 0x41, 0x8A, 0x01, 0x42, 0x8F]
    ++ List.replicate 106 0x8F

/-- A 128-byte TTI block whose text field starts with the 0x8F
end-of-text marker (at byte 16, the color-scan text-field start, with
bytes 13-15 zero), followed by text-color control byte 0x01. -/
def block_color_after_end_marker : List Nat :=
  List.replicate 16 0x00 ++ [0x8F, 0x01] ++ List.replicate 110 0x8F

/-- Any byte list whose members all stay below the diacritic range
0xC1 is transcoded to itself. -/
theorem convert_pass_through :
    ∀ l : List Nat, (∀ b ∈ l, b < 0xC1) → convert_iso6937_to_utf8 l = l := by
  intro l
  induction l with
  | nil => intro _; rfl
  | cons b tl ih =>
    intro h
    cases tl with
    | nil => rfl
    | cons c rest =>
      have hb : b < 0xC1 := h b (List.mem_cons_self b _)
      have hnot : ¬ (0xC1 ≤ b ∧ b ≤ 0xCF) := by omega
      simp only [convert_iso6937_to_utf8, if_neg hnot]
      rw [ih (fun x hx => h x (List.mem_cons_of_mem b hx))]

/-- Claim C1: the claim asks for a single text-field scan offset, but
the color scan (`extract_colors_from_tti`) starts at byte 16 while
the text/markup scan (`extract_text_and_colors_from_tti_block`)
starts at byte 13, so color codes and characters are read from
different byte positions. -/
theorem tti_text_offsets_differ :
    TTI_TEXT_FIELD_OFFSET = 16 ∧ text_field_offset = 13 ∧
    TTI_TEXT_FIELD_OFFSET ≠ text_field_offset := by decide

/-- Claim C2: a block whose text field holds only 0x8F end-of-text
markers still produces a non-empty markup string (the unconditional
line-0 color tags), so the empty-subtitle skip never fires: a cue is
emitted and the sequence index is incremented from 0 to 1. -/
theorem empty_text_block_still_emits_cue :
    extract_text_and_colors_from_tti_block block_only_end_marker TTI_BLOCK_SIZE
        = ascii "\x7b\\c&HFFFFFF&\x7d\x7b\\3c&H000000&\x7d" ∧
    ebustl_decode_block block_only_end_marker 0
        = (some (ascii "\x7b\\an2\x7d\x7b\\c&HFFFFFF&\x7d\x7b\\3c&H000000&\x7d\x7b\\bord3\x7d"),
           1) := by decide

/-- Claim C3: color enum 1 does not produce the same hex tag on every
line: on the block whose two lines each carry color byte 0x01, line 0
is tagged 0000FF (red, from the first table) while line 1 is tagged
FF0000 (blue, from the post-newline table); the two tables differ at
enum value 1. -/
theorem text_color_tables_differ_between_lines :
    extract_colors_from_tti block_red_on_two_lines 0 = (1, 7) ∧
    extract_colors_from_tti block_red_on_two_lines 1 = (1, 7) ∧
    extract_text_and_colors_from_tti_block block_red_on_two_lines TTI_BLOCK_SIZE
      = ascii "\x7b\\c&H0000FF&\x7d\x7b\\3c&H000000&\x7d   A\x7b\\c&HFF0000&\x7d\x7b\\3c&H000000&\x7d\\NB" ∧
    text_color_str_initial 1 ≠ text_color_str_newline 1 := by decide

/-- Claim C4: the color scan does not stop at the end-of-text marker:
on the block whose text field starts with 0x8F (byte 16) followed by
color byte 0x01 (byte 17), the computed line-0 text color is 1 instead
of the default 0, and the emitted markup carries the 0000FF tag. -/
theorem color_scan_reads_past_end_of_text :
    block_color_after_end_marker.getD 16 0 = 0x8F ∧
    block_color_after_end_marker.getD 17 0 = 0x01 ∧
    extract_colors_from_tti block_color_after_end_marker 0 = (1, 7) ∧
    extract_text_and_colors_from_tti_block block_color_after_end_marker TTI_BLOCK_SIZE
      = ascii "\x7b\\c&H0000FF&\x7d\x7b\\3c&H000000&\x7d" := by decide

/-- Claim C5: timecode decoding is total on all 4-byte inputs and
returns ((hours-10)*3600 + minutes*60 + seconds)*1000 + frames*40
milliseconds, with no validation of any component. -/
theorem timestamp_to_pts_matches_spec :
    ∀ hours minutes seconds frames : Nat,
      ebustl_timestamp_to_pts [hours, minutes, seconds, frames]
        = timestamp_to_pts_spec hours minutes seconds frames := by
  intro hours minutes seconds frames
  simp only [ebustl_timestamp_to_pts, timestamp_to_pts_spec, List.getD]
  norm_num

/-- Claim C6: the emitted alignment code is
(vertical_rank - 1) * 3 + horizontal_rank with the spec's rank tables,
and in particular (5, 0x01) gives 7, (12, 0x02) gives 5, and
(20, 0x03) gives 3. -/
theorem alignment_code_matches_spec :
    (∀ vertical_position justification_code : Nat,
        alignment_code vertical_position justification_code
          = (vertical_rank_spec vertical_position - 1) * 3
              + horizontal_rank_spec justification_code) ∧
    alignment_code 5 0x01 = 7 ∧ alignment_code 12 0x02 = 5 ∧
    alignment_code 20 0x03 = 3 := by
  refine ⟨fun v j => ?_, by decide, by decide, by decide⟩
  simp only [alignment_code, vertical_alignment, horizontal_alignment,
    vertical_rank_spec, horizontal_rank_spec]
  split_ifs <;> omega

/-- Claim C7: a diacritic lead byte in 0xC1..0xCF followed by a mapped
base letter transcodes to the precomposed character's bytes; with an
unmapped follower the diacritic byte is emitted literally and the
follower is processed at the next position; a trailing diacritic byte
is emitted literally; [0xC2, 0x65] gives e-acute and [0xC2] gives
[0xC2]. -/
theorem diacritic_transcoding_behavior :
    (∀ b c rest u, 0xC1 ≤ b → b ≤ 0xCF → map_iso6937_to_utf8 b c = some u →
        convert_iso6937_to_utf8 (b :: c :: rest)
          = u ++ convert_iso6937_to_utf8 rest) ∧
    (∀ b c rest, map_iso6937_to_utf8 b c = none →
        convert_iso6937_to_utf8 (b :: c :: rest)
          = b :: convert_iso6937_to_utf8 (c :: rest)) ∧
    (∀ b, convert_iso6937_to_utf8 [b] = [b]) ∧
    convert_iso6937_to_utf8 [0xC2, 0x65] = [0xC3, 0xA9] ∧
    convert_iso6937_to_utf8 [0xC2] = [0xC2] := by
  refine ⟨?_, ?_, fun b => rfl, by decide, by decide⟩
  · intro b c rest u h1 h2 hmap
    simp only [convert_iso6937_to_utf8, if_pos (And.intro h1 h2), hmap]
  · intro b c rest hmap
    by_cases hb : 0xC1 ≤ b ∧ b ≤ 0xCF
    · simp only [convert_iso6937_to_utf8, if_pos hb, hmap]
    · simp only [convert_iso6937_to_utf8, if_neg hb]

/-- Witness for C7 at concrete inputs: the mapped pair 0xC2 0x65 and
the unmapped pair 0xC1 0x7A. -/
theorem diacritic_transcoding_behavior_witness :
    convert_iso6937_to_utf8 [0xC2, 0x65, 0x41]
        = [0xC3, 0xA9] ++ convert_iso6937_to_utf8 [0x41] ∧
    convert_iso6937_to_utf8 [0xC1, 0x7A, 0x41]
        = 0xC1 :: convert_iso6937_to_utf8 [0x7A, 0x41] :=
  ⟨diacritic_transcoding_behavior.1 0xC2 0x65 [0x41] [0xC3, 0xA9]
      (by decide) (by decide) (by decide),
   diacritic_transcoding_behavior.2.1 0xC1 0x7A [0x41] (by decide)⟩

/-- Claim C8: the transcoder is the identity on inputs made only of
printable ASCII bytes. -/
theorem ascii_transcodes_to_itself (l : List Nat)
    (h : ∀ b ∈ l, 0x20 ≤ b ∧ b ≤ 0x7E) :
    convert_iso6937_to_utf8 l = l :=
  convert_pass_through l (fun b hb => by have := h b hb; omega)

/-- Witness for C8 on the concrete printable-ASCII input "HELLO". -/
theorem ascii_transcodes_to_itself_witness :
    convert_iso6937_to_utf8 (ascii "HELLO") = ascii "HELLO" :=
  ascii_transcodes_to_itself (ascii "HELLO") (by decide)

/-- Claim C9: on the empty input (L = 0) the transcoder still writes
its terminating NUL, one byte, which does not fit in the first
4 * 0 = 0 bytes of the `out_len`-sized output buffer. -/
theorem transcoder_writes_past_buffer_on_empty_input :
    convert_iso6937_to_utf8 [] = [] ∧
    ¬ ((convert_iso6937_to_utf8 []).length + 1
        ≤ out_len (List.length ([] : List Nat))) := by decide

/-- Claim C10: on a 5-byte buffer whose bytes 3 and 4 are S and T the
probe reads index 5, which is not strictly below the buffer size
(modelled by the `none` result); on a 6-byte buffer the signature
check is in bounds and matches. -/
theorem probe_reads_out_of_bounds_at_size_five :
    ebustl_probe [0x00, 0x00, 0x00, 0x53, 0x54] = none ∧
    ebustl_probe [0x00, 0x00, 0x00, 0x53, 0x54, 0x4C]
        = some AVPROBE_SCORE_MAX := by decide
